import Mathlib

/-!
Shallow embedding of `src/main.rs` of the `post_message_to_chatwork_with_reqwest`
CLI: a one-shot program that posts a message to a Chatwork room.  Pure Rust
functions become Lean functions; the HTTP transport (reqwest) is modelled as an
explicit function parameter returning either a transport-layer error or an
already JSON-parsed body; machine integers (`u32`) are `Nat` with explicit
`< 2 ^ 32` bounds.
-/

namespace Chatwork

/-- A JSON value, as produced by `serde_json` parsing a response body.
Numbers are not needed by any response shape of this program, but are kept so
that decoders must genuinely inspect the shape. -/
inductive Json where
  | null : Json
  | bool (b : Bool) : Json
  | num (n : Int) : Json
  | str (s : String) : Json
  | arr (elems : List Json) : Json
  | obj (fields : List (String × Json)) : Json

/-- First field of the given name in a JSON object, as serde field lookup. -/
def findField (fields : List (String × Json)) (name : String) : Option Json :=
  match fields with
  | [] => none
  | (k, v) :: rest => if k = name then some v else findField rest name

/-- Decode a JSON array of strings (the type of the `errors` field). -/
def decodeStringList : List Json → Option (List String)
  | [] => some []
  | Json.str s :: rest =>
    match decodeStringList rest with
    | some tail => some (s :: tail)
    | none => none
  | _ => none

/-- Rust `struct PostMessageRequest` with its one field `body: String` — the
form-encoded request. -/
structure PostMessageRequest where
  body : String

/-- Rust `enum PostMessageResponse` — the `#[serde(untagged)]` response union.
Declaration order matters for untagged decoding: `Error` is tried first. -/
inductive PostMessageResponse where
  | Error (errors : List String)
  | MessageId (message_id : String)
deriving DecidableEq

/-- Attempt the `Error { errors: Vec<String> }` variant: the JSON must be an
object whose `errors` field is an array of strings; other fields are ignored
(serde's default for untagged struct variants). -/
def decodeErrorVariant (j : Json) : Option (List String) :=
  match j with
  | Json.obj fields =>
    match findField fields "errors" with
    | some (Json.arr elems) => decodeStringList elems
    | _ => none
  | _ => none

/-- Attempt the `MessageId { message_id: String }` variant: the JSON must be an
object whose `message_id` field is a string. -/
def decodeMessageIdVariant (j : Json) : Option String :=
  match j with
  | Json.obj fields =>
    match findField fields "message_id" with
    | some (Json.str s) => some s
    | _ => none
  | _ => none

/-- Untagged deserialization of `PostMessageResponse`: serde tries the variants
in declaration order, so `Error` is attempted before `MessageId`. -/
def decodePostMessageResponse (j : Json) : Option PostMessageResponse :=
  match decodeErrorVariant j with
  | some errs => some (PostMessageResponse.Error errs)
  | none =>
    match decodeMessageIdVariant j with
    | some m => some (PostMessageResponse.MessageId m)
    | none => none

/-- Rust `struct MessageId` holding the `message_id: String` — the success
wrapper. -/
structure MessageId where
  message_id : String
deriving DecidableEq

/-- Model of `reqwest::Error`: either a transport failure of `send()` or a body-decoding
failure of `json()`; the detail string stands for the underlying error. -/
inductive ReqwestError where
  | transport (detail : String)
  | decode (detail : String)
deriving DecidableEq

/-- Model of `url::ParseError`, carrying the rejected input as its detail. -/
inductive ParseError where
  | invalidUrl (detail : String)
deriving DecidableEq

/-- Rust `enum PostMessageError` — the unified error type of `post_message`. -/
inductive PostMessageError where
  | Reqwest (e : ReqwestError)
  | UrlParse (e : ParseError)
  | API (errors : List String)
deriving DecidableEq

/-- Rust `impl From<reqwest::Error> for PostMessageError`. -/
def PostMessageError.fromReqwest (e : ReqwestError) : PostMessageError :=
  PostMessageError.Reqwest e

/-- Rust `impl From<url::ParseError> for PostMessageError`. -/
def PostMessageError.fromUrlParse (e : ParseError) : PostMessageError :=
  PostMessageError.UrlParse e

/-- A parsed URL: only the components this program constructs and the claims
inspect.  Corresponds to `reqwest::Url` (a re-export of `url::Url`). -/
structure Url where
  scheme : String
  host : String
  path : String
deriving DecidableEq

/-- Scan a character list up to the first occurrence of `stop`; return the
characters before it and the characters after it. -/
def readUntil (stop : Char) : List Char → Option (List Char × List Char)
  | [] => none
  | c :: cs =>
    if c = stop then some ([], cs)
    else
      match readUntil stop cs with
      | some (pre, post) => some (c :: pre, post)
      | none => none

/-- Modelled behavior of `Url::parse` on the URLs this program builds: a scheme
before `"://"`, a nonempty host up to the next `/`, and the rest as the path.
(`url::Url::parse` is library code; this models the fragment of its documented
behavior exercised here.) -/
def Url.parse (s : String) : Except ParseError Url :=
  match readUntil ':' s.data with
  | none => Except.error (ParseError.invalidUrl s)
  | some (schemeCs, rest) =>
    match rest with
    | '/' :: '/' :: rest2 =>
      let hostCs := rest2.takeWhile (fun c => decide (c ≠ '/'))
      let pathCs := rest2.dropWhile (fun c => decide (c ≠ '/'))
      if schemeCs = [] ∨ hostCs = [] then Except.error (ParseError.invalidUrl s)
      else Except.ok ⟨String.mk schemeCs, String.mk hostCs, String.mk pathCs⟩
    | _ => Except.error (ParseError.invalidUrl s)

/-- Rust `fn post_message_url(room_id: u32) -> Result<Url, url::ParseError>`. -/
def post_message_url (room_id : Nat) : Except ParseError Url :=
  let url_str := "https://api.chatwork.com/v2/rooms/" ++ Nat.repr room_id ++ "/messages"
  Url.parse url_str

/-- Model of `hyper::header::Headers`: a map from header names to values. -/
def Headers := List (String × String)

instance : DecidableEq Headers := by
  unfold Headers; infer_instance

/-- Constructor `Headers::new()`. -/
def Headers.new : Headers := []

/-- Method `Headers::set`: inserts a header, replacing any existing header of the
same name. -/
def Headers.set (hs : Headers) (name value : String) : Headers :=
  (name, value) :: List.filter (fun kv => decide (kv.1 ≠ name)) hs

/-- Rust `fn chatwork_api_headers(token: &str) -> Headers`: one `XChatWorkToken`
header (declared by `header! { (XChatWorkToken, "X-ChatWorkToken") => [String] }`)
holding the token. -/
def chatwork_api_headers (token : String) : Headers :=
  Headers.set Headers.new "X-ChatWorkToken" token

/-- The transport: the effect of `reqwest` sending the POST and reading the
response body as JSON text.  The network and the service are outside the
program, so the transport is a parameter; it returns either a `reqwest::Error`
(connection failure, or a body that is not JSON) or the parsed JSON body. -/
def Transport : Type :=
  Url → Headers → PostMessageRequest → Except ReqwestError Json

/-- Rust `fn request_chatwork_api(url, headers, body) -> Result<JSON, reqwest::Error>`,
specialized to `JSON = PostMessageResponse`: perform the POST, then decode the
JSON body into the response union; a body matching neither variant is a
`reqwest::Error` from `json()`. -/
def request_chatwork_api (send : Transport) (url : Url) (headers : Headers)
    (body : PostMessageRequest) : Except ReqwestError PostMessageResponse :=
  match send url headers body with
  | Except.error e => Except.error e
  | Except.ok j =>
    match decodePostMessageResponse j with
    | some r => Except.ok r
    | none => Except.error (ReqwestError.decode "error decoding response body")

/-- Rust `fn post_message(token: &str, room_id: u32, body: &str)
-> Result<MessageId, PostMessageError>`.  The two `?` operators invoke the
`From` conversions into `PostMessageError`. -/
def post_message (send : Transport) (token : String) (room_id : Nat)
    (body : String) : Except PostMessageError MessageId :=
  let req : PostMessageRequest := ⟨body⟩
  match post_message_url room_id with
  | Except.error e => Except.error (PostMessageError.fromUrlParse e)
  | Except.ok url =>
    let headers := chatwork_api_headers token
    match request_chatwork_api send url headers req with
    | Except.error e => Except.error (PostMessageError.fromReqwest e)
    | Except.ok response =>
      match response with
      | PostMessageResponse.Error errors =>
        Except.error (PostMessageError.API errors)
      | PostMessageResponse.MessageId message_id =>
        Except.ok ⟨message_id⟩

/-- Decimal value of a digit list, as accumulated by Rust's `u32::from_str`. -/
def decimalValue (cs : List Char) : Nat :=
  cs.foldl (fun acc c => acc * 10 + (c.toNat - '0'.toNat)) 0

/-- Rust `str::parse::<u32>()`: an optional leading `+`, then one or more ASCII
digits, rejecting values that overflow 32 bits. -/
def parseU32 (s : String) : Option Nat :=
  let cs :=
    match s.data with
    | c :: rest => if c = '+' then rest else c :: rest
    | [] => []
  if cs = [] then none
  else if cs.all (fun c => c.isDigit) then
    let v := decimalValue cs
    if v < 2 ^ 32 then some v else none
  else none

/-- Rust `fn parse_args() -> Result<(u32, String), String>`.  The argument iterator
`std::env::args` is modelled as the list `argv` (program name first); the first
`args.next()` discards the program name. -/
def parse_args (argv : List String) : Except String (Nat × String) :=
  match argv.drop 1 with
  | [] => Except.error "arg1 expected room_id, found None"
  | a1 :: rest =>
    match parseU32 a1 with
    | none => Except.error "arg1 expected number for room_id"
    | some room_id =>
      match rest with
      | [] => Except.error "args2 expected body, found None"
      | body :: _ => Except.ok (room_id, body)

/-- Rust `fn env_chatwork_token() -> Result<String, String>`.  The process
environment is modelled as a function from variable names to optional values. -/
def env_chatwork_token (env : String → Option String) : Except String String :=
  match env "CHATWORK_API_TOKEN" with
  | some v => Except.ok v
  | none => Except.error "CHATWORK_API_TOKEN environment variable not present"

/-- Outcome of `fn main()`: either the success value is printed in debug form,
or one of the three `unwrap()` calls panics with the unprinted error. -/
inductive MainResult where
  | printed (response : MessageId)
  | argPanic (e : String)
  | envPanic (e : String)
  | postPanic (e : PostMessageError)
deriving DecidableEq

/-- Rust `fn main()`: parse the arguments, read the token, post the message, print
the response; each `unwrap()` aborts the remaining steps on an error. -/
def main_run (argv : List String) (env : String → Option String)
    (send : Transport) : MainResult :=
  match parse_args argv with
  | Except.error e => MainResult.argPanic e
  | Except.ok (room_id, body) =>
    match env_chatwork_token env with
    | Except.error e => MainResult.envPanic e
    | Except.ok token =>
      match post_message send token room_id body with
      | Except.error e => MainResult.postPanic e
      | Except.ok response => MainResult.printed response

/-! Helper lemmas. -/

theorem data_append (s t : String) : (s ++ t).data = s.data ++ t.data := by
  cases s; cases t; rfl

theorem mk_data (s : String) : String.mk s.data = s := by
  cases s; rfl

theorem readUntil_append_of_not_mem (stop : Char) (pre post : List Char)
    (h : stop ∉ pre) :
    readUntil stop (pre ++ stop :: post) = some (pre, post) := by
  induction pre with
  | nil => simp [readUntil]
  | cons c cs ih =>
    have hc : ¬(c = stop) := fun hcc => h (by simp [hcc])
    have hcs : stop ∉ cs := fun hm => h (List.mem_cons_of_mem _ hm)
    simp [readUntil, hc, ih hcs]

theorem takeWhile_append_stop (p : Char → Bool) (l₁ l₂ : List Char) (c₀ : Char)
    (h₁ : ∀ c ∈ l₁, p c = true) (h₀ : p c₀ = false) :
    (l₁ ++ c₀ :: l₂).takeWhile p = l₁ ∧ (l₁ ++ c₀ :: l₂).dropWhile p = c₀ :: l₂ := by
  induction l₁ with
  | nil => simp [List.takeWhile, List.dropWhile, h₀]
  | cons c cs ih =>
    have hcp : p c = true := h₁ c (by simp)
    have hrest := ih (fun c hc => h₁ c (by simp [hc]))
    simp [List.takeWhile, List.dropWhile, hcp, hrest.1, hrest.2]

theorem parse_split (scheme host tail : List Char)
    (hs : ':' ∉ scheme) (hsn : scheme ≠ [])
    (hh : '/' ∉ host) (hhn : host ≠ []) :
    Url.parse (String.mk (scheme ++ ':' :: '/' :: '/' :: (host ++ '/' :: tail))) =
      Except.ok ⟨String.mk scheme, String.mk host, String.mk ('/' :: tail)⟩ := by
  have hmem : ∀ c ∈ host, (fun c => decide (c ≠ '/')) c = true := by
    intro c hc
    simp only [ne_eq, decide_eq_true_eq]
    intro hcc
    exact hh (hcc ▸ hc)
  have htake := takeWhile_append_stop (fun c => decide (c ≠ '/')) host tail '/'
    hmem (by simp)
  unfold Url.parse
  rw [show (String.mk (scheme ++ ':' :: '/' :: '/' :: (host ++ '/' :: tail))).data =
    scheme ++ ':' :: '/' :: '/' :: (host ++ '/' :: tail) from rfl]
  rw [readUntil_append_of_not_mem ':' scheme _ hs]
  simp only [htake.1, htake.2]
  rw [if_neg (by simp [hsn, hhn])]

theorem decodeStringList_map_str (l : List String) :
    decodeStringList (l.map Json.str) = some l := by
  induction l with
  | nil => rfl
  | cons e es ih => simp [decodeStringList, ih]

theorem post_message_url_eq (r : Nat) :
    post_message_url r =
      Except.ok ⟨"https", "api.chatwork.com",
        "/v2/rooms/" ++ Nat.repr r ++ "/messages"⟩ := by
  have hdecomp :
      ("https://api.chatwork.com/v2/rooms/" ++ Nat.repr r ++ "/messages").data =
        "https".data ++ ':' :: '/' :: '/' ::
          ("api.chatwork.com".data ++ '/' ::
            ("v2/rooms/".data ++ ((Nat.repr r).data ++ "/messages".data))) := by
    rw [data_append, data_append]
    simp [List.append_assoc]
  have hpath :
      String.mk ('/' :: ("v2/rooms/".data ++ ((Nat.repr r).data ++ "/messages".data))) =
        "/v2/rooms/" ++ Nat.repr r ++ "/messages" := by
    apply String.ext
    rw [data_append, data_append]
    rfl
  unfold post_message_url
  rw [show ("https://api.chatwork.com/v2/rooms/" ++ Nat.repr r ++ "/messages") =
    String.mk ("https".data ++ ':' :: '/' :: '/' ::
      ("api.chatwork.com".data ++ '/' ::
        ("v2/rooms/".data ++ ((Nat.repr r).data ++ "/messages".data)))) from by
    rw [← hdecomp, mk_data]]
  rw [parse_split _ _ _ (by decide) (by decide) (by decide) (by decide)]
  rw [hpath]

/-! Claim theorems. -/

/-- C2: for every unsigned 32-bit room identifier `r`, the URL builder succeeds
and produces a URL with scheme `https`, host `api.chatwork.com`, and path
exactly `/v2/rooms/{r}/messages`. -/
theorem post_message_url_spec (r : Nat) (_h : r < 2 ^ 32) :
    post_message_url r =
      Except.ok ⟨"https", "api.chatwork.com",
        "/v2/rooms/" ++ Nat.repr r ++ "/messages"⟩ :=
  post_message_url_eq r

theorem post_message_url_spec_witness :
    42 < 2 ^ 32 ∧
      post_message_url 42 =
        Except.ok ⟨"https", "api.chatwork.com", "/v2/rooms/42/messages"⟩ :=
  ⟨by decide, post_message_url_spec 42 (by decide)⟩

/-- C3: for every token `t`, the header builder produces a header map with
exactly one entry, whose name is the constant `X-ChatWorkToken` and whose value
is `t` unchanged. -/
theorem chatwork_api_headers_spec (t : String) :
    chatwork_api_headers t = [("X-ChatWorkToken", t)] ∧
      List.length (chatwork_api_headers t) = 1 :=
  ⟨rfl, rfl⟩

/-- C1: decoding `\x7b"message_id":"abc123"\x7d` yields the success variant with
identifier `"abc123"`; decoding `\x7b"errors":["e1","e2"]\x7d` yields the error
variant with list `["e1","e2"]`; and for every parsed response, `post_message`
maps the success shape to `Ok` carrying exactly the message identifier and the
error shape to an API error carrying exactly the service's error strings. -/
theorem response_mapping_spec :
    decodePostMessageResponse (Json.obj [("message_id", Json.str "abc123")]) =
        some (PostMessageResponse.MessageId "abc123") ∧
    decodePostMessageResponse
        (Json.obj [("errors", Json.arr [Json.str "e1", Json.str "e2"])]) =
        some (PostMessageResponse.Error ["e1", "e2"]) ∧
    (∀ (t b : String) (r : Nat) (j : Json) (m : String),
      decodePostMessageResponse j = some (PostMessageResponse.MessageId m) →
      post_message (fun _ _ _ => Except.ok j) t r b = Except.ok ⟨m⟩) ∧
    (∀ (t b : String) (r : Nat) (j : Json) (errs : List String),
      decodePostMessageResponse j = some (PostMessageResponse.Error errs) →
      post_message (fun _ _ _ => Except.ok j) t r b =
        Except.error (PostMessageError.API errs)) := by
  refine ⟨rfl, rfl, ?_, ?_⟩ <;>
  · intro t b r j x hj
    unfold post_message
    rw [post_message_url_eq r]
    unfold request_chatwork_api
    simp [hj]

theorem response_mapping_spec_witness :
    post_message
        (fun _ _ _ => Except.ok (Json.obj [("message_id", Json.str "abc123")]))
        "TOK" 42 "hello" =
      Except.ok ⟨"abc123"⟩ ∧
    post_message
        (fun _ _ _ => Except.ok
          (Json.obj [("errors", Json.arr [Json.str "e1", Json.str "e2"])]))
        "TOK" 42 "hello" =
      Except.error (PostMessageError.API ["e1", "e2"]) :=
  ⟨response_mapping_spec.2.2.1 "TOK" "hello" 42 _ "abc123" rfl,
   response_mapping_spec.2.2.2 "TOK" "hello" 42 _ ["e1", "e2"] rfl⟩

/-- C4 fails as stated: when the first positional argument is absent the
parser's message is `"arg1 expected room_id, found None"`, not the claimed
`"room_id argument missing."`. -/
theorem parse_args_message_counterexample :
    parse_args ["prog"] = Except.error "arg1 expected room_id, found None" ∧
      "arg1 expected room_id, found None" ≠ "room_id argument missing." :=
  ⟨rfl, by decide⟩

/-- C4 (amended): the parser fails with message `"arg1 expected room_id, found
None"` when the first positional argument is absent, `"arg1 expected number for
room_id"` when the first argument does not parse as an unsigned 32-bit integer,
and `"args2 expected body, found None"` when the second positional argument is
absent. -/
theorem parse_args_errors_spec :
    (∀ prog : String, parse_args [prog] =
        Except.error "arg1 expected room_id, found None") ∧
    (∀ (prog a1 : String) (rest : List String), parseU32 a1 = none →
      parse_args (prog :: a1 :: rest) =
        Except.error "arg1 expected number for room_id") ∧
    (∀ (prog a1 : String) (n : Nat), parseU32 a1 = some n →
      parse_args [prog, a1] =
        Except.error "args2 expected body, found None") := by
  refine ⟨fun prog => rfl, ?_, ?_⟩
  · intro prog a1 rest h
    simp [parse_args, h]
  · intro prog a1 n h
    simp [parse_args, h]

theorem parse_args_errors_spec_witness :
    parse_args ["prog", "abc"] =
        Except.error "arg1 expected number for room_id" ∧
    parse_args ["prog", "42"] =
        Except.error "args2 expected body, found None" :=
  ⟨parse_args_errors_spec.2.1 "prog" "abc" [] rfl,
   parse_args_errors_spec.2.2 "prog" "42" 42 rfl⟩

/-- C5: when `CHATWORK_API_TOKEN` is unset, the environment reader returns an
error whose message names the variable, and the HTTP POST step is never
reached: the outcome of `main` does not depend on the transport. -/
theorem env_token_missing_spec (env : String → Option String)
    (h : env "CHATWORK_API_TOKEN" = none) :
    env_chatwork_token env =
        Except.error ("CHATWORK_API_TOKEN" ++ " environment variable not present") ∧
    (∀ (argv : List String) (send₁ send₂ : Transport),
      main_run argv env send₁ = main_run argv env send₂) := by
  refine ⟨by simp [env_chatwork_token, h], ?_⟩
  intro argv send₁ send₂
  unfold main_run
  cases hp : parse_args argv with
  | error e => rfl
  | ok v =>
    cases v with
    | mk rid body => simp [env_chatwork_token, h]

theorem env_token_missing_spec_witness :
    env_chatwork_token (fun _ => none) =
        Except.error ("CHATWORK_API_TOKEN" ++ " environment variable not present") ∧
    main_run ["prog", "42", "hello"] (fun _ => none)
        (fun _ _ _ => Except.ok (Json.obj [("message_id", Json.str "999")])) =
      main_run ["prog", "42", "hello"] (fun _ => none)
        (fun _ _ _ => Except.error (ReqwestError.transport "down")) :=
  ⟨(env_token_missing_spec (fun _ => none) rfl).1,
   (env_token_missing_spec (fun _ => none) rfl).2 ["prog", "42", "hello"] _ _⟩

/-- C6: extra positional arguments beyond the first two are ignored: the parser
returns the same result as on the list truncated to its first two positional
arguments. -/
theorem parse_args_extra_ignored (prog a1 a2 extra : String)
    (rest : List String) :
    parse_args (prog :: a1 :: a2 :: extra :: rest) =
      parse_args [prog, a1, a2] := by
  cases h : parseU32 a1 <;> simp [parse_args, h]

/-- C7: the `From` conversions fold each URL-parse failure and each transport
failure into its own variant of the unified `PostMessageError`, carrying the
underlying detail unchanged; `post_message` propagates a failing transport
through that conversion; and every outcome of `post_message` is `Ok` or one of
the three variants of the single unified error type. -/
theorem unified_error_spec :
    (∀ e : ParseError,
      PostMessageError.fromUrlParse e = PostMessageError.UrlParse e) ∧
    (∀ e : ReqwestError,
      PostMessageError.fromReqwest e = PostMessageError.Reqwest e) ∧
    (∀ (t b : String) (r : Nat) (e : ReqwestError) (send : Transport),
      (∀ u hs req, send u hs req = Except.error e) →
      post_message send t r b =
        Except.error (PostMessageError.Reqwest e)) ∧
    (∀ (send : Transport) (t b : String) (r : Nat),
      (∃ m, post_message send t r b = Except.ok m) ∨
      (∃ e, post_message send t r b =
        Except.error (PostMessageError.Reqwest e)) ∨
      (∃ e, post_message send t r b =
        Except.error (PostMessageError.UrlParse e)) ∨
      (∃ errs, post_message send t r b =
        Except.error (PostMessageError.API errs))) := by
  refine ⟨fun e => rfl, fun e => rfl, ?_, ?_⟩
  · intro t b r e send h
    simp [post_message, post_message_url_eq, request_chatwork_api, h,
      PostMessageError.fromReqwest]
  · intro send t b r
    cases hres : post_message send t r b with
    | ok m => exact Or.inl ⟨m, rfl⟩
    | error e =>
      cases e with
      | Reqwest e => exact Or.inr (Or.inl ⟨e, rfl⟩)
      | UrlParse e => exact Or.inr (Or.inr (Or.inl ⟨e, rfl⟩))
      | API errs => exact Or.inr (Or.inr (Or.inr ⟨errs, rfl⟩))

theorem unified_error_spec_witness :
    post_message
        (fun _ _ _ => Except.error (ReqwestError.transport "connection refused"))
        "TOK" 42 "hello" =
      Except.error (PostMessageError.Reqwest
        (ReqwestError.transport "connection refused")) :=
  unified_error_spec.2.2.1 "TOK" "hello" 42 _ _ (fun _ _ _ => rfl)

/-- C8: a response body containing neither a `message_id` field nor an `errors`
field fails to decode, and `post_message` returns the transport/deserialization
error kind — not an API error and not a success value. -/
theorem neither_shape_spec (fields : List (String × Json))
    (hmid : findField fields "message_id" = none)
    (herr : findField fields "errors" = none) :
    decodePostMessageResponse (Json.obj fields) = none ∧
    (∀ (t b : String) (r : Nat),
      post_message (fun _ _ _ => Except.ok (Json.obj fields)) t r b =
        Except.error (PostMessageError.Reqwest
          (ReqwestError.decode "error decoding response body"))) := by
  have hdec : decodePostMessageResponse (Json.obj fields) = none := by
    simp [decodePostMessageResponse, decodeErrorVariant, decodeMessageIdVariant,
      hmid, herr]
  refine ⟨hdec, ?_⟩
  intro t b r
  simp [post_message, post_message_url_eq, request_chatwork_api, hdec,
    PostMessageError.fromReqwest]

theorem neither_shape_spec_witness :
    post_message (fun _ _ _ => Except.ok (Json.obj [("foo", Json.str "bar")]))
        "TOK" 42 "hello" =
      Except.error (PostMessageError.Reqwest
        (ReqwestError.decode "error decoding response body")) :=
  (neither_shape_spec [("foo", Json.str "bar")] rfl rfl).2 "TOK" "hello" 42

/-- C9: when the response object carries both an `errors` list of strings and a
`message_id` string, the untagged decoder selects the `Error` variant (variants
are tried in declaration order), so `post_message` returns an API error with
the error strings and never the success value. -/
theorem both_shapes_error_wins (fields : List (String × Json))
    (errs : List String) (mid : String)
    (herr : findField fields "errors" = some (Json.arr (errs.map Json.str)))
    (_hmid : findField fields "message_id" = some (Json.str mid)) :
    decodePostMessageResponse (Json.obj fields) =
        some (PostMessageResponse.Error errs) ∧
    (∀ (t b : String) (r : Nat),
      post_message (fun _ _ _ => Except.ok (Json.obj fields)) t r b =
        Except.error (PostMessageError.API errs)) := by
  have hlist : decodeStringList (errs.map Json.str) = some errs :=
    decodeStringList_map_str errs
  have hdec : decodePostMessageResponse (Json.obj fields) =
      some (PostMessageResponse.Error errs) := by
    simp [decodePostMessageResponse, decodeErrorVariant, herr, hlist]
  refine ⟨hdec, ?_⟩
  intro t b r
  unfold post_message
  rw [post_message_url_eq r]
  unfold request_chatwork_api
  simp [hdec]

theorem both_shapes_error_wins_witness :
    post_message
        (fun _ _ _ => Except.ok (Json.obj
          [("errors", Json.arr [Json.str "e1"]),
           ("message_id", Json.str "m1")]))
        "TOK" 42 "hello" =
      Except.error (PostMessageError.API ["e1"]) :=
  (both_shapes_error_wins
      [("errors", Json.arr [Json.str "e1"]), ("message_id", Json.str "m1")]
      ["e1"] "m1" rfl rfl).2 "TOK" "hello" 42

/-- C10: the room identifier must fit in 32 bits: every first argument that is
a decimal numeral with value at least `2 ^ 32` fails `u32` parsing, and the
parser returns the invalid-number argument error. -/
theorem room_id_u32_overflow (s : String)
    (hne : s.data ≠ [])
    (hdig : s.data.all (fun c => c.isDigit) = true)
    (hbig : 2 ^ 32 ≤ decimalValue s.data) :
    parseU32 s = none ∧
    (∀ (prog body : String) (rest : List String),
      parse_args (prog :: s :: body :: rest) =
        Except.error "arg1 expected number for room_id") := by
  have hnone : parseU32 s = none := by
    unfold parseU32
    cases hd : s.data with
    | nil => exact absurd hd hne
    | cons c cs =>
      have hcd : c.isDigit = true := by
        have hall := hdig
        rw [hd] at hall
        simp [List.all] at hall
        exact hall.1
      have hcne : ¬(c = '+') := by
        intro hc
        rw [hc] at hcd
        exact absurd hcd (by decide)
      rw [hd] at hdig hbig
      simp only [if_neg hcne]
      rw [if_neg (by simp), if_pos hdig, if_neg (Nat.not_lt.mpr hbig)]
  refine ⟨hnone, ?_⟩
  intro prog body rest
  simp [parse_args, hnone]

theorem room_id_u32_overflow_witness :
    parseU32 "4294967296" = none ∧
    parse_args ["prog", "4294967296", "hello"] =
      Except.error "arg1 expected number for room_id" :=
  ⟨(room_id_u32_overflow "4294967296" (by decide) (by decide) (by decide)).1,
   (room_id_u32_overflow "4294967296" (by decide) (by decide) (by decide)).2
     "prog" "hello" []⟩

end Chatwork
